import Mathlib

/-!
# Verification of the voice-agent turn pipeline

Shallow embedding of the voice turn pipeline of `benjichat/voice_agent_base`:

* the server-side turn graph (`speech_to_text → react_agent_node →
  text_to_speech`, from `apps/agents/src/react-agent/`), and
* the client-side playback deduplication (`useTTSPlayer` hook) and the
  voice-recording submission path (`voice-only-interface.tsx`).

External collaborators (the OpenAI Whisper transcription call, the
ReAct agent invocation, the ElevenLabs synthesis call, Node base64
codecs) are modelled as oracle fields of an `Env` record: the embedded
stage functions are parametric in them, exactly as the source treats
them as opaque request/response calls that either return a value or
throw.  A thrown JS exception is modelled as `Except.error`; a stage
that catches all exceptions is a total Lean function returning an
update record.
-/

namespace VoiceAgent

/-! ## Data model: conversation messages

LangChain messages are objects; the turn graph only distinguishes
human-authored messages (`HumanMessage`), agent-authored messages
(`AIMessage` / `AIMessageChunk`, both treated identically by
`text_to_speech`), and everything else (tool/system messages).  A
message `content` is either a plain string or a non-string structured
value (`complex`), matching the `typeof content !== "string"` check in
`text-to-speech.ts`. -/

inductive MsgRole where
  | human
  | ai
  | tool
  | system
deriving DecidableEq, Repr

inductive MsgContent where
  | text (s : String)
  | complex
deriving DecidableEq, Repr

structure Msg where
  role : MsgRole
  content : MsgContent
deriving DecidableEq, Repr

/-! ## Data model: turn state

`SpeechInput` mirrors the `SpeechInput` interface of
`speech-to-text.ts` (base64 `audioData`, optional `mimeType`/`size`);
`TTSOutput` mirrors the `TTSOutput` interface of `text-to-speech.ts`.
A runtime-absent `audioData` is modelled as the empty string (its
length 0 is below the minimum-size check, which is also how the
`!audioInput.audioData` guard behaves on the falsy empty string). -/

structure SpeechInput where
  audioData : String
  mimeType : Option String
  size : Option Nat
deriving DecidableEq, Repr

structure TTSOutput where
  audioData : String
  mimeType : String
  size : Nat
deriving DecidableEq, Repr

/-- The LangGraph channel state declared by the graph:
`MessagesAnnotation` plus the `audioInput` and `ttsOutput` channels. -/
structure SpeechState where
  messages : List Msg
  audioInput : Option SpeechInput
  ttsOutput : Option TTSOutput
deriving DecidableEq, Repr

/-- A node update.  `messages` is appended by the messages reducer
(new messages carry fresh ids, so the id-upsert reducer is plain
concatenation here); for the two last-value channels, `none` means the
key is absent from the returned update (channel untouched) and
`some v` means the node returned the key with value `v` (in
particular `some none` is the explicit `field: undefined` write the
stages use to clear a channel). -/
structure SpeechUpdate where
  messages : List Msg := []
  audioInput : Option (Option SpeechInput) := none
  ttsOutput : Option (Option TTSOutput) := none
deriving DecidableEq, Repr

def applyUpdate (s : SpeechState) (u : SpeechUpdate) : SpeechState :=
  { messages := s.messages ++ u.messages
    audioInput := u.audioInput.getD s.audioInput
    ttsOutput := u.ttsOutput.getD s.ttsOutput }

/-! ## External collaborators -/

/-- Environment and collaborator oracles.  `transcribe` is one
`openai.audio.transcriptions.create` call on a buffer, file name and
MIME label; `agent` is the whole `createReactAgent(...).invoke` call
(it returns the full result message list, a superset of the input);
`synthesize` is the ElevenLabs `textToSpeech.convert` call together
with draining the returned stream to bytes.  `base64ToBuffer` and
`bufferToBase64` are the Node `Buffer` codecs used by `utils.ts` and
`text-to-speech.ts`.  `Except.error` models a thrown exception or
rejected promise. -/
structure Env where
  openaiKey : Option String
  elevenKey : Option String
  base64ToBuffer : String → List Nat
  bufferToBase64 : List Nat → String
  transcribe : List Nat → String → String → Except String String
  agent : List Msg → Except String (List Msg)
  synthesize : String → Except String (List Nat)

/-! ## Stage 1: `speech_to_text` (speech-to-text.ts) -/

/-- The minimum base64 length accepted by the malformed-payload check
`audioInput.audioData.length < 100`. -/
def minAudioChars : Nat := 100

/-- The ordered candidate formats tried by the transcription loop. -/
def formats : List (String × String) :=
  [("audio.wav", "audio/wav"),
   ("audio.webm", "audio/webm"),
   ("audio.mp3", "audio/mp3"),
   ("audio.m4a", "audio/m4a"),
   ("audio.ogg", "audio/ogg")]

/-- The fixed apology appended when transcription fails entirely. -/
def transcribeApology : Msg :=
  { role := MsgRole.human
    content := MsgContent.text
      "Sorry, I couldn\x27t process your voice message. Please try again or type your message." }

/-- The `for (const format of formats)` loop: try each candidate on the
same buffer, return the first success; if all fail, rethrow the last
error (or a generic error when the list is empty). -/
def tryFormats (env : Env) (buffer : List Nat) :
    List (String × String) → Option String → Except String String
  | [], lastError => Except.error (lastError.getD "All audio formats failed")
  | (name, ty) :: rest, _ =>
    match env.transcribe buffer name ty with
    | Except.ok t => Except.ok t
    | Except.error e => tryFormats env buffer rest (some e)

/-- The `speech_to_text` node.  Absent `audioInput` returns the empty
update.  Otherwise the `try` block checks the API key, the minimum
payload size, decodes the base64 payload once, and runs the format
loop; any failure is caught and turned into the apology update, which
also clears `audioInput`. -/
def speech_to_text (env : Env) (state : SpeechState) : SpeechUpdate :=
  match state.audioInput with
  | none => {}
  | some audioInput =>
    let attempt : Except String SpeechUpdate :=
      match env.openaiKey with
      | none => Except.error "OpenAI API key not configured"
      | some _ =>
        if audioInput.audioData.length < minAudioChars then
          Except.error "Audio data appears to be empty or too short"
        else
          let audioBuffer := env.base64ToBuffer audioInput.audioData
          match tryFormats env audioBuffer formats none with
          | Except.ok transcription =>
            Except.ok
              { messages := [{ role := MsgRole.human, content := MsgContent.text transcription }]
                audioInput := some none }
          | Except.error e => Except.error e
    match attempt with
    | Except.ok u => u
    | Except.error _ =>
      { messages := [transcribeApology], audioInput := some none }

/-! ## Stage 2: `react_agent_node` (graph file)

The node loads the model, builds the ReAct agent, invokes it, and
appends only the new suffix (`result.messages.slice(state.messages.length)`).
There is no `try`/`catch` in this node: a throw from the collaborator
propagates out of the node, hence out of the graph.  Model loading and
agent construction failures are folded into the `agent` oracle. -/

def react_agent_node (env : Env) (state : SpeechState) :
    Except String SpeechUpdate :=
  match env.agent state.messages with
  | Except.error e => Except.error e
  | Except.ok resultMessages =>
    Except.ok { messages := resultMessages.drop state.messages.length }

/-! ## Stage 3: `text_to_speech` (text-to-speech.ts) -/

/-- The `text_to_speech` node.  It reads only
`messages[messages.length - 1]`: if that is missing, not an
`AIMessage`/`AIMessageChunk`, or its content is not a non-empty
string, it returns `{ ttsOutput: undefined }`.  Otherwise the `try`
block checks the ElevenLabs key and calls the synthesis collaborator;
on success it returns the base64 payload with MIME type
`"audio/mpeg"` and `size` the byte length of the audio buffer; any
throw is caught and yields `{ ttsOutput: undefined }`.  (The local
file save sits in its own inner `try`/`catch` and cannot affect the
returned update, so it is not modelled.) -/
def text_to_speech (env : Env) (state : SpeechState) : SpeechUpdate :=
  match state.messages.getLast? with
  | none => { ttsOutput := some none }
  | some lastMessage =>
    if lastMessage.role = MsgRole.ai then
      match lastMessage.content with
      | MsgContent.complex => { ttsOutput := some none }
      | MsgContent.text textContent =>
        if textContent = "" then { ttsOutput := some none }
        else
          match env.elevenKey with
          | none => { ttsOutput := some none }
          | some _ =>
            match env.synthesize textContent with
            | Except.error _ => { ttsOutput := some none }
            | Except.ok audioBuffer =>
              { ttsOutput := some (some
                  { audioData := env.bufferToBase64 audioBuffer
                    mimeType := "audio/mpeg"
                    size := audioBuffer.length }) }
    else { ttsOutput := some none }

/-! ## The compiled graph

`workflow.compile()` produces a strictly linear runnable:
`__start__ → speech_to_text → react_agent → text_to_speech → __end__`,
each node update folded into the channel state.  LangGraph propagates
a node exception to the caller of `invoke`, which is the only way the
graph can fail. -/

def runTurn (env : Env) (state : SpeechState) : Except String SpeechState :=
  let s1 := applyUpdate state (speech_to_text env state)
  match react_agent_node env s1 with
  | Except.error e => Except.error e
  | Except.ok u =>
    let s2 := applyUpdate s1 u
    Except.ok (applyUpdate s2 (text_to_speech env s2))

/-! ## Client playback deduplication (`useTTSPlayer` hook)

The hook keeps `lastPlayedDataRef` (the fingerprint of the last audio
handed to `playTTS`) and `isPlaying`.  `playTTS` computes the hash
`` `${ttsOutput.size}-${ttsOutput.audioData.substring(0, 50)}` ``,
returns immediately when it matches the stored fingerprint, and
otherwise stores it and runs the decode/blob/`audio.play()` sequence.
Every throw in that sequence (invalid base64, empty blob, rejected
`play()`) lands in one `catch` that resets `isPlaying` and nulls the
fingerprint; the `ended` and `error` event handlers of a started
playback do the same, as does `stopTTS`.  The whole fallible sequence
after the dedup check is abstracted by the Boolean `attemptOk`; the
second component of the result counts audio elements created and
played (0 or 1). -/

structure PlayerState where
  lastPlayedData : Option String
  isPlaying : Bool
deriving DecidableEq, Repr

/-- The content fingerprint: declared size plus the first 50
characters of the base64 payload. -/
def audioHash (tts : TTSOutput) : String :=
  toString tts.size ++ "-" ++ tts.audioData.take 50

/-- One `playTTS(ttsOutput)` call.  `attemptOk` tells whether the
fallible decode/blob/play sequence succeeds; on failure the `catch`
block nulls the fingerprint and clears `isPlaying`. -/
def playTTS (s : PlayerState) (tts : TTSOutput) (attemptOk : Bool) :
    PlayerState × Nat :=
  let h := audioHash tts
  if s.lastPlayedData = some h then (s, 0)
  else if attemptOk then
    ({ lastPlayedData := some h, isPlaying := true }, 1)
  else
    ({ lastPlayedData := none, isPlaying := false }, 0)

/-- The `ended` event handler of a playing audio element:
`setIsPlaying(false); lastPlayedDataRef.current = null` (plus URL
revocation, which has no bearing on deduplication). -/
def audioEnded (_s : PlayerState) : PlayerState :=
  { lastPlayedData := none, isPlaying := false }

/-- The `error` event handler:
`setIsPlaying(false); lastPlayedDataRef.current = null`. -/
def audioErrored (_s : PlayerState) : PlayerState :=
  { lastPlayedData := none, isPlaying := false }

/-- `stopTTS()`: pause the element, reset `currentTime`, clear
`isPlaying`, and unconditionally null the fingerprint. -/
def stopTTS (_s : PlayerState) : PlayerState :=
  { lastPlayedData := none, isPlaying := false }

/-! ## Client submission path (`voice-only-interface.tsx`)

`handleVoiceRecordingComplete` is modelled as a state transformer on
the component state visible to the cited code: the processing flag,
the scheduled 60 s timer, the toast lists, the submission count, and
the stream/playback observables the surrounding component reads.
React `setX` calls are modelled as field updates; one React subtlety
is modelled explicitly because the cited `finally` block depends on
it: `processingTimeoutId` read inside the `finally` is the value
captured when the callback closure was created (the previous render),
never the id of the timer the same invocation just scheduled with
`setProcessingTimeoutId`, so the freshly scheduled timer is not the
one `clearTimeout` targets and stays pending.  `timerPending` tracks
that freshly scheduled timer.  `streamLoading` models
`stream.isLoading`: the submission starts a run, so it is `true` from
`stream.submit` until the run finishes. -/

structure WebState where
  isProcessingVoice : Bool
  streamLoading : Bool
  timerPending : Bool
  submissions : Nat
  playedAudios : Nat
  errorToasts : List String
  successToasts : List String
  infoToasts : List String
  lastProcessedMessageId : Option String
  hasUserInteracted : Bool
  recordingError : Bool
  isPlayingAudio : Bool
  recordingState : String
deriving DecidableEq, Repr

/-- `const maxSize = 50 * 1024 * 1024; // 50MB limit`. -/
def maxAudioBytes : Nat := 50 * 1024 * 1024

/-- The `setTimeout(..., 60000)` delay, in milliseconds. -/
def processingTimeoutMs : Nat := 60000

/-- The `finally` block of `handleVoiceRecordingComplete`: it reads
the render-time `processingTimeoutId` (never the timer just
scheduled, see above), so `timerPending` is untouched; then
`setIsProcessingVoice(false)`. -/
def recordingFinally (s : WebState) : WebState :=
  { s with isProcessingVoice := false }

/-- One `handleVoiceRecordingComplete(audioBlob)` call.  `blobSize` is
`audioBlob.size`; `encodeOk` abstracts the fallible base64
conversion.  Guard: return immediately while `stream.isLoading`.
Then set the processing flag, schedule the 60 s timer, and in the
`try` body: reject oversize payloads with an error toast, reject
failed conversions with an error toast, otherwise call
`stream.submit` (starting a run, so `stream.isLoading` becomes true)
and toast success; the `finally` runs on every path. -/
def handleVoiceRecordingComplete (s : WebState) (blobSize : Nat)
    (encodeOk : Bool) : WebState :=
  if s.streamLoading then s
  else
    let s1 := { s with isProcessingVoice := true, timerPending := true }
    if blobSize > maxAudioBytes then
      recordingFinally { s1 with errorToasts := "Audio file too large" :: s1.errorToasts }
    else if encodeOk = false then
      recordingFinally { s1 with errorToasts := "Failed to process audio" :: s1.errorToasts }
    else
      recordingFinally
        { s1 with submissions := s1.submissions + 1
                  streamLoading := true
                  successToasts := "Voice message sent!" :: s1.successToasts }

/-- The timeout callback firing (only a pending, uncancelled timer
fires): `setIsProcessingVoice(false)` and an error toast.  Nothing
else is touched: the in-flight run is not cancelled and no
subscription is torn down. -/
def processingTimeoutFires (s : WebState) : WebState :=
  if s.timerPending then
    { s with timerPending := false
             isProcessingVoice := false
             errorToasts := "Processing timed out" :: s.errorToasts }
  else s

/-- The turn result arriving: the run finishes (`stream.isLoading`
becomes false) and the `useEffect` watching `stream.values.ttsOutput`
runs.  It plays any `ttsOutput` with non-empty `audioData` whose id
`` `tts_${messages.length}_${audioData.length}` `` differs from
`lastProcessedMessageId`, provided the user has interacted; otherwise
it surfaces an info toast.  No check consults the processing timer. -/
def streamResultArrives (s : WebState) (tts : TTSOutput)
    (messageCount : Nat) : WebState :=
  let s1 := { s with streamLoading := false }
  if tts.audioData = "" then s1
  else
    let ttsId := "tts_" ++ toString messageCount ++ "_" ++ toString tts.audioData.length
    if s1.lastProcessedMessageId = some ttsId then s1
    else
      let s2 := { s1 with lastProcessedMessageId := some ttsId }
      if s2.hasUserInteracted then
        { s2 with playedAudios := s2.playedAudios + 1 }
      else
        { s2 with infoToasts := "Audio response ready" :: s2.infoToasts }

/-- `getButtonState()` of the component. -/
def getButtonState (s : WebState) : String :=
  if s.recordingError then "error"
  else if s.isProcessingVoice || s.streamLoading then "processing"
  else if s.isPlayingAudio then "playing"
  else if s.recordingState = "recording" then "recording"
  else if s.recordingState = "requesting" then "requesting"
  else "idle"

/-! ## Concrete instances used to exercise the definitions -/

/-- An environment whose collaborators all throw. -/
def envAllFail : Env :=
  { openaiKey := some "key"
    elevenKey := some "key"
    base64ToBuffer := fun s => List.replicate s.length 0
    bufferToBase64 := fun _ => ""
    transcribe := fun _ _ _ => Except.error "transcription failed"
    agent := fun _ => Except.error "agent failure"
    synthesize := fun _ => Except.error "synthesis failure" }

/-- An environment where transcription succeeds only for the webm
candidate and synthesis succeeds. -/
def envPartial : Env :=
  { openaiKey := some "key"
    elevenKey := some "key"
    base64ToBuffer := fun s => List.replicate s.length 0
    bufferToBase64 := fun _ => "b64"
    transcribe := fun _ name _ =>
      if name = "audio.webm" then Except.ok "hello there"
      else Except.error "format failed"
    agent := fun ms => Except.ok ms
    synthesize := fun _ => Except.ok [1, 2, 3] }

/-- A 120-character base64 payload (above the 100-char minimum). -/
def bigAudioData : String := String.mk (List.replicate 120 'Q')

def stEmptyAudio : SpeechState :=
  { messages := []
    audioInput := some { audioData := "", mimeType := none, size := none }
    ttsOutput := none }

def stBigAudio : SpeechState :=
  { messages := []
    audioInput := some { audioData := bigAudioData, mimeType := some "audio/webm", size := some 90 }
    ttsOutput := none }

def stTextOnly : SpeechState :=
  { messages := [{ role := MsgRole.human, content := MsgContent.text "hi" }]
    audioInput := none
    ttsOutput := none }

def stLastHuman : SpeechState :=
  { messages := [{ role := MsgRole.human, content := MsgContent.text "hi" }]
    audioInput := none
    ttsOutput := none }

def stLastAI : SpeechState :=
  { messages := [{ role := MsgRole.human, content := MsgContent.text "hi" },
                 { role := MsgRole.ai, content := MsgContent.text "Hello" }]
    audioInput := none
    ttsOutput := none }

/-- The component state at rest, after the user has interacted once. -/
def idleWeb : WebState :=
  { isProcessingVoice := false
    streamLoading := false
    timerPending := false
    submissions := 0
    playedAudios := 0
    errorToasts := []
    successToasts := []
    infoToasts := []
    lastProcessedMessageId := none
    hasUserInteracted := true
    recordingError := false
    isPlayingAudio := false
    recordingState := "idle" }

def ttsSmall : TTSOutput :=
  { audioData := "abc", mimeType := "audio/mpeg", size := 3 }

/-! ## Helper lemmas on the transcription format loop -/

/-- If every candidate in the list fails, the loop rethrows an error. -/
theorem tryFormats_all_error (env : Env) (buffer : List Nat) :
    ∀ (fmts : List (String × String)) (lastError : Option String),
      (∀ p ∈ fmts, ∃ e, env.transcribe buffer p.1 p.2 = Except.error e) →
      ∃ e, tryFormats env buffer fmts lastError = Except.error e := by
  intro fmts
  induction fmts with
  | nil =>
    intro lastError _
    exact ⟨lastError.getD "All audio formats failed", rfl⟩
  | cons p rest ih =>
    intro lastError hAll
    obtain ⟨e, he⟩ := hAll p (List.mem_cons_self p rest)
    obtain ⟨name, ty⟩ := p
    simp only [tryFormats, he]
    exact ih (some e) (fun q hq => hAll q (List.mem_cons_of_mem _ hq))

/-- The loop returns the first successful candidate: if everything
before `fmt` fails and `fmt` succeeds with transcript `t`, the loop
returns `t`, whatever the later candidates would do. -/
theorem tryFormats_first_ok (env : Env) (buffer : List Nat) (t : String) :
    ∀ (pre : List (String × String)) (fmt : String × String)
      (suf : List (String × String)) (lastError : Option String),
      (∀ p ∈ pre, ∃ e, env.transcribe buffer p.1 p.2 = Except.error e) →
      env.transcribe buffer fmt.1 fmt.2 = Except.ok t →
      tryFormats env buffer (pre ++ fmt :: suf) lastError = Except.ok t := by
  intro pre
  induction pre with
  | nil =>
    intro fmt suf lastError _ hOk
    obtain ⟨name, ty⟩ := fmt
    simp only [List.nil_append, tryFormats, hOk]
  | cons p rest ih =>
    intro fmt suf lastError hPre hOk
    obtain ⟨e, he⟩ := hPre p (List.mem_cons_self p rest)
    obtain ⟨name, ty⟩ := p
    simp only [List.cons_append, tryFormats, he]
    exact ih fmt suf (some e) (fun q hq => hPre q (List.mem_cons_of_mem _ hq)) hOk

/-! ## Claim C1 -/

/-- Claim C1, counterexample: the claim says the turn graph never
raises to its caller and converts an agent-stage throw into an
apology message with synthesis still running.  On the code,
`react_agent_node` has no `try`/`catch`, so with an agent collaborator
that throws, `runTurn` propagates the error to its caller on a
concrete input (and the synthesize stage never runs). -/
theorem c1_counterexample :
    runTurn envAllFail { messages := [], audioInput := none, ttsOutput := none } =
      Except.error "agent failure" := rfl

/-- Claim C1, amended: stage-local failures of the transcribe and
synthesize stages are absorbed into the returned state (those stage
functions are total), but an agent-collaborator throw is not caught:
`runTurn` raises exactly when the agent invocation on the
post-transcription message list throws, and it raises that very
error. -/
theorem c1_amended_runTurn_raises_iff_agent_raises
    (env : Env) (state : SpeechState) (e : String) :
    runTurn env state = Except.error e ↔
      env.agent (applyUpdate state (speech_to_text env state)).messages =
        Except.error e := by
  unfold runTurn react_agent_node
  cases h : env.agent (applyUpdate state (speech_to_text env state)).messages <;>
    simp [h]

/-! ## Claim C2 -/

/-- Claim C2: if `audioInput` is present and every transcription
candidate fails — including the malformed case where the audio data
is absent/empty or below the 100-character minimum — the transcribe
stage returns normally with exactly one new human-authored apology
message appended and `audioInput` cleared (so the agent and
synthesize stages still execute on the updated state). -/
theorem c2_all_candidates_fail_appends_apology
    (env : Env) (state : SpeechState) (audioIn : SpeechInput)
    (hIn : state.audioInput = some audioIn)
    (hFail : audioIn.audioData.length < minAudioChars ∨
      ∀ p ∈ formats, ∃ e,
        env.transcribe (env.base64ToBuffer audioIn.audioData) p.1 p.2 =
          Except.error e) :
    speech_to_text env state =
      { messages := [transcribeApology], audioInput := some none } ∧
    transcribeApology.role = MsgRole.human ∧
    (applyUpdate state (speech_to_text env state)).messages =
      state.messages ++ [transcribeApology] ∧
    (applyUpdate state (speech_to_text env state)).audioInput = none := by
  have hmain : speech_to_text env state =
      { messages := [transcribeApology], audioInput := some none } := by
    unfold speech_to_text
    rw [hIn]
    cases hk : env.openaiKey with
    | none => rfl
    | some k =>
      by_cases hlen : audioIn.audioData.length < minAudioChars
      · simp [hlen]
      · rcases hFail with h | h
        · exact absurd h hlen
        · obtain ⟨e, he⟩ :=
            tryFormats_all_error env (env.base64ToBuffer audioIn.audioData)
              formats none h
          simp [hlen, he]
  refine ⟨hmain, rfl, ?_, ?_⟩ <;> rw [hmain] <;> rfl

/-- Witness for C2, at the malformed input of Scenario A: an
`audioInput` whose payload is empty. -/
theorem c2_witness :
    speech_to_text envAllFail stEmptyAudio =
      { messages := [transcribeApology], audioInput := some none } ∧
    transcribeApology.role = MsgRole.human ∧
    (applyUpdate stEmptyAudio (speech_to_text envAllFail stEmptyAudio)).messages =
      stEmptyAudio.messages ++ [transcribeApology] ∧
    (applyUpdate stEmptyAudio (speech_to_text envAllFail stEmptyAudio)).audioInput = none :=
  c2_all_candidates_fail_appends_apology envAllFail stEmptyAudio
    { audioData := "", mimeType := none, size := none }
    rfl (Or.inl (by decide))

/-! ## Claim C3 -/

/-- Claim C3: with `audioInput` absent, the transcribe stage returns
the empty update, so the resulting state equals the input state in
every field. -/
theorem c3_transcribe_noop_without_audio (env : Env) (state : SpeechState)
    (h : state.audioInput = none) :
    speech_to_text env state = {} ∧
    applyUpdate state (speech_to_text env state) = state := by
  have hmain : speech_to_text env state = {} := by
    unfold speech_to_text
    rw [h]
  refine ⟨hmain, ?_⟩
  rw [hmain]
  cases state with
  | mk m a t => simp [applyUpdate]

/-- Witness for C3: a text-only turn state. -/
theorem c3_witness :
    speech_to_text envAllFail stTextOnly = {} ∧
    applyUpdate stTextOnly (speech_to_text envAllFail stTextOnly) = stTextOnly :=
  c3_transcribe_noop_without_audio envAllFail stTextOnly rfl

/-! ## Claim C4 -/

/-- Claim C4: with a non-trivial `audioInput` (payload at or above the
minimum length, API key configured), the transcribe stage tries the
candidate labels in the fixed order wav, webm, mp3, m4a, ogg against
the same decoded bytes, accepts the first candidate that succeeds
(the environment is unconstrained on the later candidates, so they
are never consulted), and appends the transcript as exactly one human
message while clearing `audioInput`. -/
theorem c4_first_success_appends_transcript
    (env : Env) (state : SpeechState) (audioIn : SpeechInput)
    (k t : String) (pre suf : List (String × String)) (fmt : String × String)
    (hIn : state.audioInput = some audioIn)
    (hKey : env.openaiKey = some k)
    (hLen : ¬ audioIn.audioData.length < minAudioChars)
    (hSplit : formats = pre ++ fmt :: suf)
    (hPre : ∀ p ∈ pre, ∃ e,
      env.transcribe (env.base64ToBuffer audioIn.audioData) p.1 p.2 =
        Except.error e)
    (hOk : env.transcribe (env.base64ToBuffer audioIn.audioData) fmt.1 fmt.2 =
      Except.ok t) :
    formats = [("audio.wav", "audio/wav"), ("audio.webm", "audio/webm"),
               ("audio.mp3", "audio/mp3"), ("audio.m4a", "audio/m4a"),
               ("audio.ogg", "audio/ogg")] ∧
    speech_to_text env state =
      { messages := [{ role := MsgRole.human, content := MsgContent.text t }],
        audioInput := some none } := by
  refine ⟨rfl, ?_⟩
  have hTry := tryFormats_first_ok env (env.base64ToBuffer audioIn.audioData) t
    pre fmt suf none hPre hOk
  rw [← hSplit] at hTry
  unfold speech_to_text
  rw [hIn, hKey]
  simp [hLen, hTry]

/-- Witness for C4: the wav candidate fails, the webm candidate
succeeds with transcript "hello there", later candidates are never
consulted. -/
theorem c4_witness :
    formats = [("audio.wav", "audio/wav"), ("audio.webm", "audio/webm"),
               ("audio.mp3", "audio/mp3"), ("audio.m4a", "audio/m4a"),
               ("audio.ogg", "audio/ogg")] ∧
    speech_to_text envPartial stBigAudio =
      { messages := [{ role := MsgRole.human,
                       content := MsgContent.text "hello there" }],
        audioInput := some none } :=
  c4_first_success_appends_transcript envPartial stBigAudio
    { audioData := bigAudioData, mimeType := some "audio/webm", size := some 90 }
    "key" "hello there"
    [("audio.wav", "audio/wav")]
    [("audio.mp3", "audio/mp3"), ("audio.m4a", "audio/m4a"), ("audio.ogg", "audio/ogg")]
    ("audio.webm", "audio/webm")
    rfl rfl (by decide) rfl
    (by
      intro p hp
      simp only [List.mem_singleton] at hp
      subst hp
      exact ⟨"format failed", rfl⟩)
    rfl

/-! ## Claim C5 -/

/-- Whether a message passes both guards of `text_to_speech`:
agent-authored with non-empty string content. -/
def speakableB (m : Msg) : Bool :=
  match m.role, m.content with
  | MsgRole.ai, MsgContent.text t => if t = "" then false else true
  | _, _ => false

/-- Whether the last message of the state is speakable. -/
def lastSpeakable (state : SpeechState) : Bool :=
  match state.messages.getLast? with
  | none => false
  | some m => speakableB m

/-- Claim C5: the synthesize stage operates only on the last message
(states agreeing on their last message get the same update); if that
message is missing, not agent-authored, or its content is not a
non-empty string, the stage returns with `ttsOutput` absent; and when
synthesis succeeds the returned `ttsOutput` has MIME type
`"audio/mpeg"` and `size` equal to the byte length of the synthesized
audio, positive whenever the audio is non-empty. -/
theorem c5_synthesize_last_message (env : Env) (state : SpeechState) :
    (∀ s2 : SpeechState, state.messages.getLast? = s2.messages.getLast? →
      text_to_speech env state = text_to_speech env s2) ∧
    (lastSpeakable state = false →
      text_to_speech env state = { ttsOutput := some none }) ∧
    (∀ (m : Msg) (t k : String) (audio : List Nat),
      state.messages.getLast? = some m → m.role = MsgRole.ai →
      m.content = MsgContent.text t → t ≠ "" →
      env.elevenKey = some k → env.synthesize t = Except.ok audio →
      text_to_speech env state =
        { ttsOutput := some (some
            { audioData := env.bufferToBase64 audio
              mimeType := "audio/mpeg"
              size := audio.length }) } ∧
      (audio ≠ [] → 0 < audio.length)) := by
  refine ⟨?_, ?_, ?_⟩
  · intro s2 h
    unfold text_to_speech
    rw [h]
  · intro h
    cases hm : state.messages.getLast? with
    | none =>
      unfold text_to_speech
      rw [hm]
    | some m =>
      obtain ⟨r, c⟩ := m
      unfold text_to_speech
      rw [hm]
      simp only [lastSpeakable, hm, speakableB] at h
      cases r <;> cases c <;> simp_all
  · intro m t k audio hm hr hc ht hk hs
    refine ⟨?_, fun hne => List.length_pos.mpr hne⟩
    unfold text_to_speech
    rw [hm]
    simp [hr, hc, ht, hk, hs]

/-- Witness for C5: a human-last state yields no `ttsOutput`; an
AI-last state with successful synthesis of three audio bytes yields
`mimeType = "audio/mpeg"` and `size = 3 > 0`. -/
theorem c5_witness :
    text_to_speech envPartial stLastHuman = { ttsOutput := some none } ∧
    text_to_speech envPartial stLastAI =
      { ttsOutput := some (some
          { audioData := "b64", mimeType := "audio/mpeg", size := 3 }) } ∧
    (0 : Nat) < 3 :=
  ⟨(c5_synthesize_last_message envPartial stLastHuman).2.1 rfl,
   ((c5_synthesize_last_message envPartial stLastAI).2.2
      { role := MsgRole.ai, content := MsgContent.text "Hello" }
      "Hello" "key" [1, 2, 3] rfl rfl rfl (by decide) rfl rfl).1,
   ((c5_synthesize_last_message envPartial stLastAI).2.2
      { role := MsgRole.ai, content := MsgContent.text "Hello" }
      "Hello" "key" [1, 2, 3] rfl rfl rfl (by decide) rfl rfl).2 (by decide)⟩

/-! ## Claim C6 -/

/-- Claim C6: if the synthesis collaborator throws on every text, the
synthesize stage still returns normally, with `ttsOutput` absent and
the message list unchanged from its input (the agent stage's
output). -/
theorem c6_synthesis_throw_absorbed (env : Env) (state : SpeechState)
    (hThrow : ∀ t, ∃ e, env.synthesize t = Except.error e) :
    text_to_speech env state = { ttsOutput := some none } ∧
    (applyUpdate state (text_to_speech env state)).messages = state.messages ∧
    (applyUpdate state (text_to_speech env state)).ttsOutput = none := by
  have hmain : text_to_speech env state = { ttsOutput := some none } := by
    cases hm : state.messages.getLast? with
    | none =>
      unfold text_to_speech
      rw [hm]
    | some m =>
      obtain ⟨r, c⟩ := m
      unfold text_to_speech
      rw [hm]
      cases r <;> cases c <;> simp_all
      case ai.text t =>
        by_cases ht : t = ""
        · simp [ht]
        · cases hk : env.elevenKey with
          | none => simp [ht]
          | some k =>
            obtain ⟨e, he⟩ := hThrow t
            simp [ht, he]
  refine ⟨hmain, ?_, ?_⟩ <;> rw [hmain] <;> simp [applyUpdate]

/-- Witness for C6, Scenario C: synthesis throws on an AI-final
state; `ttsOutput` is absent and the messages are untouched. -/
theorem c6_witness :
    text_to_speech envAllFail stLastAI = { ttsOutput := some none } ∧
    (applyUpdate stLastAI (text_to_speech envAllFail stLastAI)).messages =
      stLastAI.messages ∧
    (applyUpdate stLastAI (text_to_speech envAllFail stLastAI)).ttsOutput = none :=
  c6_synthesis_throw_absorbed envAllFail stLastAI
    (fun _ => ⟨"synthesis failure", rfl⟩)

/-! ## Claim C7 -/

/-- Claim C7: delivering the same `ttsOutput` fingerprint (declared
size plus the first 50 characters of the payload) twice in sequence
starts playback at most once, whatever the outcomes of the two
underlying play attempts; and after a first successful call the
second call detects the matching fingerprint and returns immediately,
creating and playing no new audio element (the state is unchanged and
the play count of the second call is zero). -/
theorem c7_duplicate_delivery_plays_once (s : PlayerState) (tts : TTSOutput)
    (ok1 ok2 : Bool) :
    (playTTS s tts ok1).2 + (playTTS (playTTS s tts ok1).1 tts ok2).2 ≤ 1 ∧
    playTTS (playTTS s tts true).1 tts ok2 = ((playTTS s tts true).1, 0) := by
  constructor
  · by_cases h : s.lastPlayedData = some (audioHash tts) <;>
      cases ok1 <;> cases ok2 <;> simp [playTTS, h]
  · by_cases h : s.lastPlayedData = some (audioHash tts) <;> simp [playTTS, h]

/-! ## Claim C8 -/

/-- Claim C8, counterexample: the claim says that when the 60-second
timeout fires before the turn result arrives, the session leaves the
processing state and returns to idle, and a later server-side result
is discarded.  On the code, a concrete trace — finalize a small
recording from the idle state, let the timeout fire, then let the
result arrive — shows the button state is still "processing" after
the timeout (the stream is still loading), and the late result is
still played (`playedAudios` grows), not discarded. -/
theorem c8_counterexample :
    getButtonState (processingTimeoutFires
      (handleVoiceRecordingComplete idleWeb 10 true)) ≠ "idle" ∧
    getButtonState (processingTimeoutFires
      (handleVoiceRecordingComplete idleWeb 10 true)) = "processing" ∧
    (streamResultArrives (processingTimeoutFires
      (handleVoiceRecordingComplete idleWeb 10 true)) ttsSmall 5).playedAudios =
      (processingTimeoutFires
        (handleVoiceRecordingComplete idleWeb 10 true)).playedAudios + 1 := by
  refine ⟨?_, ?_, ?_⟩ <;> decide

/-- Claim C8, amended: finalizing a recording schedules a fixed
60000 ms (60-second) timeout whose handler, when it fires, surfaces a
timeout error and clears the component's processing flag — but the
session does not return to idle while the submitted run is still
loading (the button state remains "processing"), the in-flight turn
is not cancelled, and a turn result arriving after the timeout is
still delivered and played rather than discarded. -/
theorem c8_amended_timeout_behavior (s : WebState) (blobSize : Nat)
    (tts : TTSOutput) (n : Nat)
    (h1 : s.streamLoading = false) (h2 : blobSize ≤ maxAudioBytes)
    (h3 : s.recordingError = false) (h4 : s.hasUserInteracted = true)
    (h5 : s.lastProcessedMessageId = none) (h6 : tts.audioData ≠ "") :
    processingTimeoutMs = 60000 ∧
    (handleVoiceRecordingComplete s blobSize true).timerPending = true ∧
    (handleVoiceRecordingComplete s blobSize true).submissions = s.submissions + 1 ∧
    (handleVoiceRecordingComplete s blobSize true).streamLoading = true ∧
    (processingTimeoutFires (handleVoiceRecordingComplete s blobSize true)).isProcessingVoice = false ∧
    (processingTimeoutFires (handleVoiceRecordingComplete s blobSize true)).errorToasts =
      "Processing timed out" ::
        (handleVoiceRecordingComplete s blobSize true).errorToasts ∧
    getButtonState (processingTimeoutFires
      (handleVoiceRecordingComplete s blobSize true)) = "processing" ∧
    (streamResultArrives (processingTimeoutFires
      (handleVoiceRecordingComplete s blobSize true)) tts n).playedAudios =
      s.playedAudios + 1 := by
  have hns : ¬ blobSize > maxAudioBytes := Nat.not_lt.mpr h2
  have hstep : handleVoiceRecordingComplete s blobSize true =
      recordingFinally
        { s with isProcessingVoice := true
                 timerPending := true
                 submissions := s.submissions + 1
                 streamLoading := true
                 successToasts := "Voice message sent!" :: s.successToasts } := by
    unfold handleVoiceRecordingComplete
    rw [h1]
    simp [hns]
  rw [hstep]
  unfold recordingFinally processingTimeoutFires streamResultArrives getButtonState
  simp [processingTimeoutMs, h3, h4, h5, h6]

/-- Witness for the amended C8, on the concrete trace of the
counterexample. -/
theorem c8_amended_witness :
    processingTimeoutMs = 60000 ∧
    (handleVoiceRecordingComplete idleWeb 10 true).timerPending = true ∧
    (handleVoiceRecordingComplete idleWeb 10 true).submissions = idleWeb.submissions + 1 ∧
    (handleVoiceRecordingComplete idleWeb 10 true).streamLoading = true ∧
    (processingTimeoutFires (handleVoiceRecordingComplete idleWeb 10 true)).isProcessingVoice = false ∧
    (processingTimeoutFires (handleVoiceRecordingComplete idleWeb 10 true)).errorToasts =
      "Processing timed out" ::
        (handleVoiceRecordingComplete idleWeb 10 true).errorToasts ∧
    getButtonState (processingTimeoutFires
      (handleVoiceRecordingComplete idleWeb 10 true)) = "processing" ∧
    (streamResultArrives (processingTimeoutFires
      (handleVoiceRecordingComplete idleWeb 10 true)) ttsSmall 5).playedAudios =
      idleWeb.playedAudios + 1 :=
  c8_amended_timeout_behavior idleWeb 10 ttsSmall 5 rfl (by decide) rfl rfl rfl
    (by decide)

/-! ## Claim C9 -/

/-- Claim C9: a finalized recording whose size exceeds the fixed
50 MB ceiling is rejected as a user-correctable error: an error
notice is surfaced, no submission occurs, and the handler returns
normally with the processing flag cleared (no crash). -/
theorem c9_oversize_recording_rejected (s : WebState) (blobSize : Nat)
    (encodeOk : Bool)
    (hIdle : s.streamLoading = false) (hBig : maxAudioBytes < blobSize) :
    maxAudioBytes = 50 * 1024 * 1024 ∧
    (handleVoiceRecordingComplete s blobSize encodeOk).submissions = s.submissions ∧
    (handleVoiceRecordingComplete s blobSize encodeOk).errorToasts =
      "Audio file too large" :: s.errorToasts ∧
    (handleVoiceRecordingComplete s blobSize encodeOk).isProcessingVoice = false := by
  refine ⟨rfl, ?_, ?_, ?_⟩ <;>
    · unfold handleVoiceRecordingComplete recordingFinally
      rw [hIdle]
      simp [hBig]

/-- Witness for C9: a payload one byte over the ceiling, from the
idle state. -/
theorem c9_witness :
    maxAudioBytes = 50 * 1024 * 1024 ∧
    (handleVoiceRecordingComplete idleWeb (maxAudioBytes + 1) true).submissions =
      idleWeb.submissions ∧
    (handleVoiceRecordingComplete idleWeb (maxAudioBytes + 1) true).errorToasts =
      "Audio file too large" :: idleWeb.errorToasts ∧
    (handleVoiceRecordingComplete idleWeb (maxAudioBytes + 1) true).isProcessingVoice =
      false :=
  c9_oversize_recording_rejected idleWeb (maxAudioBytes + 1) true rfl
    (Nat.lt_succ_self maxAudioBytes)

/-! ## Claim C10 -/

/-- Claim C10: the duplicate-playback fingerprint is nulled whenever
a playback ends naturally, errors, or is stopped; consequently
delivering the same `ttsOutput` again after the previous identical
playback finished starts playback again — deduplication only
suppresses a duplicate delivered while the prior identical playback
has not yet completed. -/
theorem c10_fingerprint_cleared_on_completion (s : PlayerState) (tts : TTSOutput) :
    (audioEnded s).lastPlayedData = none ∧
    (audioErrored s).lastPlayedData = none ∧
    (stopTTS s).lastPlayedData = none ∧
    (playTTS (audioEnded (playTTS s tts true).1) tts true).2 = 1 ∧
    (playTTS (audioErrored (playTTS s tts true).1) tts true).2 = 1 ∧
    (playTTS (stopTTS (playTTS s tts true).1) tts true).2 = 1 := by
  refine ⟨rfl, rfl, rfl, ?_, ?_, ?_⟩ <;>
    simp [audioEnded, audioErrored, stopTTS, playTTS]

end VoiceAgent
